import Mathlib

/-!
Shallow embedding of the whitenoise repository's core request path, translated
from the Python sources:

  * `src/whitenoise/static_file.py` (namespace `WhiteNoise.SF`)
  * `src/whitenoise/base.py`        (namespace `WhiteNoise.WNB`)
  * `src/src/whitenoise/compress.py` (namespace `WhiteNoise.Compress`)

Conventions used throughout:
  * Python exceptions are modelled with `Except PyErr`; the exception class
    hierarchy (`NotARegularFileError` > `MissingFileError` > `IsDirectoryError`)
    is flattened into an enumeration, with catch-site predicates such as
    `isMissingFileError` encoding which classes an `except` clause captures.
  * `wsgiref.headers.Headers` is an ordered list of (name, value) pairs with
    case-insensitive lookup; `__setitem__` deletes all entries for the name and
    appends at the end, `get` returns the first match, `__contains__` is
    `get(name) is not None`.  Modelled by `hset` / `hget` / `hcontains`.
  * Request header dictionaries (WSGI environ / request.META) use exact string
    keys; modelled as association lists with exact-match lookup `rget`.
  * `time.struct_time` values (results of `email.utils.parsedate`) are linearly
    ordered 9-tuples; they are abstracted to `Nat` timestamps, which preserves
    the linear order that all comparisons in the source rely on.
  * Library calls that read the environment (`os.stat`, `formatdate`,
    `parsedate`, `mimetypes.guess_type`, the md5 content hash, file reading,
    the actual gzip/brotli compressors) are supplied as explicit environment
    records, so every definition stays executable.
-/

deriving instance DecidableEq for Except

namespace WhiteNoise

/-- Python exception outcomes that the modelled code can produce. -/
inductive PyErr where
  | typeError
  | valueError
  | keyError
  | unboundLocalError
  | missingFile
  | isDirectory
  | notARegularFile
  | osError (errno : Nat)
deriving Repr, DecidableEq

/-- `stat.S_ISREG` / `S_ISDIR` discrimination of `st_mode`. -/
inductive FType where
  | regular
  | directory
  | other
deriving Repr, DecidableEq

/-- The fields of an `os.stat_result` that the code reads. -/
structure StatResult where
  st_size : Nat
  st_mtime : Nat
  ftype : FType
deriving Repr, DecidableEq

instance : Inhabited StatResult := ⟨⟨0, 0, FType.regular⟩⟩

/-- `whitenoise.static_file.FileEntry`: a path together with its validated
stat snapshot. -/
structure FileEntry where
  path : String
  stat : StatResult
deriving Repr, DecidableEq

instance : Inhabited FileEntry := ⟨⟨"", default⟩⟩

/-- `wsgiref.headers.Headers`: an ordered (name, value) list with
case-insensitive operations. -/
abbrev Headers := List (String × String)

/-- `str.lower()` for header names.  (Implemented over the character list so
that every definition in this file evaluates by structural recursion.) -/
def slower (s : String) : String :=
  String.mk (s.toList.map Char.toLower)

/-- `str.startswith`. -/
def sstartsWith (s pre : String) : Bool :=
  pre.toList.isPrefixOf s.toList

/-- `str.endswith`. -/
def sendsWith (s suf : String) : Bool :=
  suf.toList.reverse.isPrefixOf s.toList.reverse

/-- `s[n:]` (drop the first `n` characters). -/
def sdrop (s : String) (n : Nat) : String :=
  String.mk (s.toList.drop n)

/-- `len(s)` (in characters, as for a Python `str`). -/
def slen (s : String) : Nat :=
  s.toList.length

/-- `Headers.__delitem__`: drop every entry whose name matches
case-insensitively. -/
def hdel (h : Headers) (k : String) : Headers :=
  h.filter (fun kv => slower kv.1 != slower k)

/-- `Headers.__setitem__`: delete all entries for the name, then append. -/
def hset (h : Headers) (k v : String) : Headers :=
  hdel h k ++ [(k, v)]

/-- `Headers.get` / `__getitem__`: first value stored under the name
(case-insensitive), else `None`. -/
def hget (h : Headers) (k : String) : Option String :=
  (h.find? (fun kv => slower kv.1 == slower k)).map (fun kv => kv.2)

/-- `Headers.__contains__`: `self.get(name) is not None`. -/
def hcontains (h : Headers) (k : String) : Bool :=
  (hget h k).isSome

/-- Exact-key dictionary lookup (`dict.get`) for WSGI request headers. -/
def rget (l : List (String × String)) (k : String) : Option String :=
  (l.find? (fun kv => kv.1 == k)).map (fun kv => kv.2)

/-- A response body stream: an open file handle with a seek position
(`open(path, 'rb')` followed by optional `seek`). -/
structure FileHandle where
  path : String
  pos : Nat
deriving Repr, DecidableEq

/-- The `Response` namedtuple of `static_file.py`. -/
structure Response where
  status : Nat
  headers : List (String × String)
  file : Option FileHandle
deriving Repr, DecidableEq

namespace SF

/-- Environment of library functions used by `static_file.py`.  `fstat` models
`os.stat` (errors surface as `PyErr.osError errno`), `formatdate` /
`parsedate` model `email.utils`, `guess_type` models `mimetypes.guess_type`,
and `md5file` models `StaticFile.calculate_etag`'s content hash of the file at
a path of a given size. -/
structure SEnv where
  fstat : String → Except PyErr StatResult
  formatdate : Nat → String
  parsedate : String → Option Nat
  guess_type : String → Option String × Option String
  md5file : String → Nat → String

/-- `stat_cache.__getitem__`: a missing key raises `KeyError`. -/
def cacheGetItem (cache : String → Option StatResult) : String → Except PyErr StatResult :=
  fun p =>
    match cache p with
    | some r => .ok r
    | none => .error PyErr.keyError

/-- `os.stat` over a plain path → stat mapping: a missing path raises
`OSError` with `errno.ENOENT` (2). -/
def osStatOf (fs : String → Option StatResult) : String → Except PyErr StatResult :=
  fun p =>
    match fs p with
    | some r => .ok r
    | none => .error (PyErr.osError 2)

/-- Which errors the `except MissingFileError` clauses catch: both
`MissingFileError` and its subclass `IsDirectoryError`. -/
def isMissingFileError : PyErr → Bool
  | PyErr.missingFile => true
  | PyErr.isDirectory => true
  | _ => false

/-- `FileEntry.stat_regular_file`: wrap the stat function, mapping `KeyError`
and `ENOENT`(2)/`ENAMETOOLONG`(36) `OSError`s to `MissingFileError`, and
non-regular nodes to `IsDirectoryError` / `NotARegularFileError`. -/
def stat_regular_file (stat_function : String → Except PyErr StatResult) (path : String) :
    Except PyErr StatResult :=
  match stat_function path with
  | .error PyErr.keyError => .error PyErr.missingFile
  | .error (PyErr.osError e) =>
      if e = 2 || e = 36 then .error PyErr.missingFile else .error (PyErr.osError e)
  | .error e => .error e
  | .ok r =>
      match r.ftype with
      | FType.regular => .ok r
      | FType.directory => .error PyErr.isDirectory
      | FType.other => .error PyErr.notARegularFile

/-- `FileEntry.__init__`: pick `os.stat` or the injected cache lookup, then
validate with `stat_regular_file`. -/
def FileEntry.build (env : SEnv) (stat_cache : Option (String → Option StatResult))
    (path : String) : Except PyErr FileEntry :=
  let stat_function :=
    match stat_cache with
    | none => env.fstat
    | some cache => cacheGetItem cache
  (stat_regular_file stat_function path).map (fun r => { path := path, stat := r })

/-- The loop body of `StaticFile.get_file_stats` over the `encodings` dict:
alternatives whose `FileEntry` raises `MissingFileError` are skipped, other
errors propagate.  (The Python dict is modelled as an insertion-ordered
association list; real callers pass distinct encoding keys.) -/
def build_alternatives (env : SEnv) (stat_cache : Option (String → Option StatResult)) :
    List (String × String) → Except PyErr (List (Option String × FileEntry))
  | [] => .ok []
  | (encoding, alt_path) :: rest =>
      match FileEntry.build env stat_cache alt_path with
      | .ok fe => (build_alternatives env stat_cache rest).map (fun l => (some encoding, fe) :: l)
      | .error e =>
          if isMissingFileError e then build_alternatives env stat_cache rest
          else .error e

/-- `StaticFile.get_file_stats`: the primary file (encoding `None`) must
exist; encoded alternatives are optional. -/
def get_file_stats (env : SEnv) (stat_cache : Option (String → Option StatResult))
    (path : String) (encodings : List (String × String)) :
    Except PyErr (List (Option String × FileEntry)) :=
  match FileEntry.build env stat_cache path with
  | .error e => .error e
  | .ok primary =>
      (build_alternatives env stat_cache encodings).map (fun l => (none, primary) :: l)

/-- `files[None]`.  The `none` key is always present in any list produced by
`get_file_stats`; the default is the unreachable `KeyError` branch. -/
def primaryOf (files : List (Option String × FileEntry)) : FileEntry :=
  match files.find? (fun e => e.1.isNone) with
  | some e => e.2
  | none => default

/-- `StaticFile.set_content_type`: `mimetypes.guess_type` with the
`application/octet-stream` fallback (Python truthiness: `None` and `""` both
fall back), plus `Content-Encoding` when the guess reports one. -/
def set_content_type (env : SEnv) (headers : Headers) (path : String) : Headers :=
  let guessed := env.guess_type path
  let content_type :=
    match guessed.1 with
    | some ct => if ct = "" then "application/octet-stream" else ct
    | none => "application/octet-stream"
  let h := hset headers "Content-Type" content_type
  match guessed.2 with
  | some encoding => if encoding = "" then h else hset h "Content-Encoding" encoding
  | none => h

/-- `StaticFile.get_headers`: merge the caller-supplied header list with
derived `Vary`, `Last-Modified`, `Content-Type` and (optionally) `ETag`. -/
def get_headers (env : SEnv) (headers_list : List (String × String))
    (files : List (Option String × FileEntry)) (add_etag : Bool) : Headers :=
  let headers : Headers := headers_list
  let primary_file := primaryOf files
  let headers := if files.length > 1 then hset headers "Vary" "Accept-Encoding" else headers
  let headers :=
    if hcontains headers "Last-Modified" then headers
    else hset headers "Last-Modified" (env.formatdate primary_file.stat.st_mtime)
  let headers :=
    if hcontains headers "Content-Type" then headers
    else set_content_type env headers primary_file.path
  let headers :=
    if add_etag && !(hcontains headers "ETag") then
      hset headers "ETag" (env.md5file primary_file.path primary_file.stat.st_size)
    else headers
  headers

/-- The `NOT_MODIFIED_HEADERS` constant: the only header fields copied into a
304 response. -/
def NOT_MODIFIED_HEADERS : List String :=
  ["Cache-Control", "Content-Location", "Date", "ETag", "Expires", "Vary"]

/-- `StaticFile.get_not_modified_response`: a 304 with only the allowed
header fields that are present, and no body. -/
def get_not_modified_response (headers : Headers) : Response :=
  { status := 304
  , headers := NOT_MODIFIED_HEADERS.filterMap (fun key => (hget headers key).map (fun v => (key, v)))
  , file := none }

/-- The two shapes of compiled regex used for encoding negotiation:
`re.compile('')` (matches anywhere in any string) for the identity variant and
`re.compile(r'\b<token>\b')` for an encoded variant. -/
inductive Matcher where
  | universal
  | word (token : String)
deriving Repr, DecidableEq

/-- `\w` for the ASCII header tokens the code matches against. -/
def isWordChar (c : Char) : Bool := c.isAlphanum || c = '_'

/-- A `\b` word boundary between two optional characters (out-of-string
counts as a non-word character). -/
def boundaryB (a b : Option Char) : Bool :=
  (match a with | some c => isWordChar c | none => false)
    != (match b with | some c => isWordChar c | none => false)

/-- Does `\b<tok>\b` match at this exact position (`prev` is the character
just before the position)? -/
def wordMatchAt (tok : List Char) (prev : Option Char) (s : List Char) : Bool :=
  tok.isPrefixOf s && boundaryB prev tok.head? && boundaryB tok.getLast? ((s.drop tok.length).head?)

/-- Scan all positions of `s` for a `\b<tok>\b` match (`re.search`). -/
def wordSearchAux (tok : List Char) (prev : Option Char) : List Char → Bool
  | [] => wordMatchAt tok prev []
  | c :: rest => wordMatchAt tok prev (c :: rest) || wordSearchAux tok (some c) rest

/-- `matcher.search(accept_encoding)` as a Boolean (the code only tests
truthiness of the match object). -/
def Matcher.search : Matcher → String → Bool
  | Matcher.universal, _ => true
  | Matcher.word tok, s => wordSearchAux tok.toList none s.toList

/-- The matcher `get_alternatives` compiles for a given encoding key
(`if encoding:` is Python truthiness, so `None` and `""` both take the
`re.compile('')` branch). -/
def matcherOf : Option String → Matcher
  | none => Matcher.universal
  | some encoding => if encoding = "" then Matcher.universal else Matcher.word encoding

/-- The sort key relation of `sorted(files.items(), key=lambda i: i[1].stat.st_size)`. -/
def sizeLe (a b : Option String × FileEntry) : Prop :=
  a.2.stat.st_size ≤ b.2.stat.st_size

instance : DecidableRel sizeLe :=
  fun a b => inferInstanceAs (Decidable (a.2.stat.st_size ≤ b.2.stat.st_size))

instance : IsTotal (Option String × FileEntry) sizeLe :=
  ⟨fun a b => Nat.le_total _ _⟩

instance : IsTrans (Option String × FileEntry) sizeLe :=
  ⟨fun _ _ _ => Nat.le_trans⟩

/-- One iteration of the `get_alternatives` loop: clone the base headers,
overwrite `Content-Length` with the variant's size, and for a (truthy) encoded
variant add `Content-Encoding` and the word-boundary matcher. -/
def altEntry (base_headers : Headers) (e : Option String × FileEntry) :
    Matcher × String × List (String × String) :=
  let headers := hset base_headers "Content-Length" (toString e.2.stat.st_size)
  match e.1 with
  | some encoding =>
      if encoding = "" then (Matcher.universal, e.2.path, headers)
      else (Matcher.word encoding, e.2.path, hset headers "Content-Encoding" encoding)
  | none => (Matcher.universal, e.2.path, headers)

/-- `StaticFile.get_alternatives`: variants sorted ascending by file size
(Python's stable `sorted` is mirrored by a stable insertion sort), each with
its matcher, path and header list. -/
def get_alternatives (base_headers : Headers) (files : List (Option String × FileEntry)) :
    List (Matcher × String × List (String × String)) :=
  (List.insertionSort sizeLe files).map (altEntry base_headers)

/-- The request-time state stored by `StaticFile.__init__`. -/
structure StaticFile where
  last_modified : Option Nat
  etag : Option String
  not_modified_response : Response
  alternatives : List (Matcher × String × List (String × String))
deriving Repr, DecidableEq

/-- The tail of `StaticFile.__init__` after `get_file_stats`: merge headers
and precompute the derived request-time state.  (`headers['Last-Modified']`
is always present at this point, having been set by `get_headers`.) -/
def StaticFile.assemble (env : SEnv) (headers_list : List (String × String))
    (files : List (Option String × FileEntry)) (add_etag : Bool) : StaticFile :=
  let headers := get_headers env headers_list files add_etag
  { last_modified :=
      match hget headers "Last-Modified" with
      | some s => env.parsedate s
      | none => none
  , etag := hget headers "ETag"
  , not_modified_response := get_not_modified_response headers
  , alternatives := get_alternatives headers files }

/-- `StaticFile.__init__` in full. -/
def StaticFile.build (env : SEnv) (stat_cache : Option (String → Option StatResult))
    (path : String) (headers_list : List (String × String))
    (encodings : List (String × String)) (add_etag : Bool) : Except PyErr StaticFile :=
  (get_file_stats env stat_cache path encodings).map
    (fun files => StaticFile.assemble env headers_list files add_etag)

/-- `StaticFile.etag_matches`: `if not self.etag` is Python truthiness (both
`None` and `""` are falsy); otherwise compare with the request's
`If-None-Match` value (`None` when absent). -/
def etag_matches (sf : StaticFile) (request_headers : List (String × String)) : Bool :=
  match sf.etag with
  | none => false
  | some e => if e = "" then false else decide (some e = rget request_headers "HTTP_IF_NONE_MATCH")

/-- `StaticFile.not_modified_since`: absent header returns `False`; otherwise
`parsedate(value) >= self.last_modified`.  When either side is `None` the
Python 3 comparison raises `TypeError` (on Python 2 it would evaluate to
`False`, `None` sorting below everything). -/
def not_modified_since (env : SEnv) (sf : StaticFile) (request_headers : List (String × String)) :
    Except PyErr Bool :=
  match rget request_headers "HTTP_IF_MODIFIED_SINCE" with
  | none => .ok false
  | some last_requested =>
      match env.parsedate last_requested, sf.last_modified with
      | some d, some lm => .ok (decide (lm ≤ d))
      | _, _ => .error PyErr.typeError

/-- `StaticFile.is_not_modified`: the ETag check short-circuits the
Last-Modified check. -/
def is_not_modified (env : SEnv) (sf : StaticFile) (request_headers : List (String × String)) :
    Except PyErr Bool :=
  if etag_matches sf request_headers then .ok true
  else not_modified_since env sf request_headers

/-- `StaticFile.get_path_and_headers`: first alternative (in size order) whose
matcher accepts the request's `Accept-Encoding` (defaulting to `""`); the
Python `for` loop falls off the end returning `None` when nothing matches. -/
def get_path_and_headers (sf : StaticFile) (request_headers : List (String × String)) :
    Option (String × List (String × String)) :=
  let accept_encoding := (rget request_headers "HTTP_ACCEPT_ENCODING").getD ""
  (sf.alternatives.find? (fun alt => alt.1.search accept_encoding)).map
    (fun alt => (alt.2.1, alt.2.2))

/-- The `NOT_ALLOWED_RESPONSE` constant. -/
def NOT_ALLOWED_RESPONSE : Response :=
  { status := 405, headers := [("Allow", "GET, HEAD")], file := none }

/-- Python `str.strip()` whitespace set. -/
def pyIsSpace (c : Char) : Bool :=
  c = ' ' || c = '\t' || c = '\n' || c = '\r' || c = '\x0b' || c = '\x0c'

/-- Python `str.strip()`. -/
def pstrip (s : String) : String :=
  String.mk (((s.toList.dropWhile pyIsSpace).reverse.dropWhile pyIsSpace).reverse)

/-- Split a character list at the first occurrence of `c`. -/
def partChar (c : Char) : List Char → Option (List Char × List Char)
  | [] => none
  | x :: xs =>
      if x = c then some ([], xs)
      else
        match partChar c xs with
        | some (a, b) => some (x :: a, b)
        | none => none

/-- Python `str.partition` for a single-character separator. -/
def pypartition (s : String) (c : Char) : String × String × String :=
  match partChar c s.toList with
  | some (a, b) => (String.mk a, String.mk [c], String.mk b)
  | none => (s, "", "")

/-- Accumulate a decimal digit string; `none` when a non-digit appears. -/
def digitsValAux : List Char → Nat → Option Nat
  | [], acc => some acc
  | c :: rest, acc =>
      if c.isDigit then digitsValAux rest (acc * 10 + (c.toNat - 48)) else none

/-- Python `int(str)`: optional surrounding whitespace, optional sign, at
least one decimal digit; anything else raises `ValueError`. -/
def pyInt (s : String) : Except PyErr Int :=
  let t := pstrip s
  match t.toList with
  | [] => .error PyErr.valueError
  | '-' :: rest =>
      (match rest with
       | [] => .error PyErr.valueError
       | _ =>
          match digitsValAux rest 0 with
          | some n => .ok (-(n : Int))
          | none => .error PyErr.valueError)
  | '+' :: rest =>
      (match rest with
       | [] => .error PyErr.valueError
       | _ =>
          match digitsValAux rest 0 with
          | some n => .ok (n : Int)
          | none => .error PyErr.valueError)
  | l =>
      match digitsValAux l 0 with
      | some n => .ok (n : Int)
      | none => .error PyErr.valueError

/-- `StaticFile.parse_byte_range`: `"bytes=<start>-<end>"` with an empty
start field meaning a suffix range. -/
def parse_byte_range (range_header : String) : Except PyErr (Int × Option Int) :=
  let p1 := pypartition (pstrip range_header) '='
  let units := p1.1
  let range_spec := p1.2.2
  if units ≠ "bytes" then .error PyErr.valueError
  else
    let p2 := pypartition (pstrip range_spec) '-'
    let start_str := p2.1
    let sep := p2.2.1
    let end_str := p2.2.2
    if sep ≠ "-" then .error PyErr.valueError
    else if start_str = "" then
      match pyInt end_str with
      | .ok e => .ok (-e, none)
      | .error er => .error er
    else
      match pyInt start_str with
      | .error er => .error er
      | .ok s =>
          if end_str ≠ "" then
            match pyInt end_str with
            | .ok e => .ok (s, some e)
            | .error er => .error er
          else .ok (s, none)

/-- `StaticFile.get_byte_range`: reinterpret a negative start as a suffix,
default a missing end to `size - 1`, clamp the end with `max(end, size - 1)`
(the source really uses `max` here), and reject `start >= end`. -/
def get_byte_range (range_header : String) (size : Int) : Except PyErr (Int × Int) :=
  match parse_byte_range range_header with
  | .error e => .error e
  | .ok (start0, end0) =>
      let start := if start0 < 0 then max (start0 + size) 0 else start0
      let endv :=
        match end0 with
        | none => size - 1
        | some e => max e (size - 1)
      if start ≥ endv then .error PyErr.valueError else .ok (start, endv)

/-- The header loop at the top of `StaticFile.get_range_response`.  The branch
for a `Content-Length` item executes `size = item(item[1])`, which calls the
tuple `item` and therefore raises `TypeError` (the source presumably meant
`int(item[1])`); every other item is appended to the copied list. -/
def scan_range_headers : List (String × String) → Except PyErr (List (String × String))
  | [] => .ok []
  | item :: rest =>
      if item.1 = "Content-Length" then .error PyErr.typeError
      else (scan_range_headers rest).map (fun l => item :: l)

/-- `StaticFile.get_range_response`.  If `base_headers` contains a
`Content-Length` item the header loop raises `TypeError` (see
`scan_range_headers`); otherwise the local `size` was assigned on no path, so
evaluating it in `self.get_byte_range(range_header, size)` raises
`UnboundLocalError`, which the `except ValueError` clause does not catch.
Consequently the 200 fallback and the 206 construction further down the
function are unreachable. -/
def get_range_response (range_header : String) (base_headers : List (String × String))
    (file_handle : Option FileHandle) : Except PyErr Response :=
  match scan_range_headers base_headers with
  | .error e => .error e
  | .ok _headers => .error PyErr.unboundLocalError

/-- `StaticFile.get_response`: 405 for non-GET/HEAD, then the conditional
check, then encoding negotiation (unpacking the `None` fall-through of
`get_path_and_headers` would raise `TypeError`), then the Range branch
(`if range_header:` is truthiness, so an empty value skips it). -/
def get_response (env : SEnv) (sf : StaticFile) (method : String)
    (request_headers : List (String × String)) : Except PyErr Response :=
  if ¬(method = "GET" ∨ method = "HEAD") then .ok NOT_ALLOWED_RESPONSE
  else
    match is_not_modified env sf request_headers with
    | .error e => .error e
    | .ok true => .ok sf.not_modified_response
    | .ok false =>
        match get_path_and_headers sf request_headers with
        | none => .error PyErr.typeError
        | some (path, headers) =>
            let file_handle := if method ≠ "HEAD" then some { path := path, pos := 0 } else none
            match rget request_headers "HTTP_RANGE" with
            | some range_header =>
                if range_header ≠ "" then get_range_response range_header headers file_handle
                else .ok { status := 200, headers := headers, file := file_handle }
            | none => .ok { status := 200, headers := headers, file := file_handle }

end SF

namespace WNB

/-- Environment of library functions and configuration used by
`whitenoise/base.py`'s `WhiteNoise` class: `os.stat`, `email.utils`
formatting, the `MediaTypes` table, and the config attributes consulted by
`get_static_file` (`is_immutable_file` is the overridable hook, `False` in
the base class). -/
structure BEnv where
  fstat : String → Except PyErr StatResult
  formatdate : Nat → String
  parsedate : String → Option Nat
  get_type : String → String
  charset : String
  max_age : Option Int
  allow_all_origins : Bool
  is_immutable_file : String → String → Bool

/-- `base.py`'s `StaticFile` (the gzip-era one, distinct from
`static_file.py`'s class of the same name). -/
structure BStaticFile where
  path : String
  headers : Headers
  last_modified : Option Nat
  gzip_path : Option String
  gzip_headers : Option Headers
deriving Repr, DecidableEq

/-- The `FOREVER` max-age (ten years of seconds). -/
def FOREVER : Int := 10 * 365 * 24 * 60 * 60

/-- Strip `/` characters from both ends (Python `str.strip('/')`). -/
def stripSlashes (s : String) : String :=
  String.mk (((s.toList.dropWhile (fun c => c = '/')).reverse.dropWhile (fun c => c = '/')).reverse)

/-- `base.format_prefix`: normalize an optional URL prefix to the form
`/p/` (or just `/`). -/
def formatPrefix (p : Option String) : String :=
  let s := stripSlashes (p.getD "")
  if s = "" then "/" else "/" ++ s ++ "/"

/-- `base.stat_regular_file`: only `ENOENT` (2) becomes `MissingFileError`
here, and a directory also raises `MissingFileError` directly. -/
def bstat_regular_file (env : BEnv) (path : String) : Except PyErr StatResult :=
  match env.fstat path with
  | .error (PyErr.osError e) =>
      if e = 2 then .error PyErr.missingFile else .error (PyErr.osError e)
  | .error e => .error e
  | .ok r =>
      match r.ftype with
      | FType.regular => .ok r
      | FType.directory => .error PyErr.missingFile
      | FType.other => .error PyErr.notARegularFile

/-- `WhiteNoise.get_static_file`: stat the file (errors propagate), build the
header set (`add_stat_headers`, `add_mime_headers` — `wsgiref`'s `add_header`
appends —, `add_cache_headers`, `add_cors_headers`; the `add_extra_headers`
hook is a no-op and `add_headers_function` is its default `None`), parse the
`Last-Modified` value back, and probe for a `.gz` sibling
(`get_gzipped_alternative`: a `MissingFileError` on the sibling means no gzip
variant, and note that finding one mutates the *shared* headers by setting
`Vary` before the gzip copy is taken). -/
def get_static_file (env : BEnv) (path url : String) : Except PyErr BStaticFile :=
  match bstat_regular_file env path with
  | .error e => .error e
  | .ok file_stat =>
      let headers : Headers := []
      let headers := hset headers "Last-Modified" (env.formatdate file_stat.st_mtime)
      let headers := hset headers "Content-Length" (toString file_stat.st_size)
      let media_type := env.get_type path
      let content_type :=
        if sstartsWith media_type "text/" || media_type = "application/javascript" then
          media_type ++ "; charset=" ++ env.charset
        else media_type
      let headers := headers ++ [("Content-Type", content_type)]
      let max_age := if env.is_immutable_file path url then some FOREVER else env.max_age
      let headers :=
        match max_age with
        | some m => hset headers "Cache-Control" ("public, max-age=" ++ toString m)
        | none => headers
      let headers :=
        if env.allow_all_origins then hset headers "Access-Control-Allow-Origin" "*" else headers
      let last_modified :=
        match hget headers "Last-Modified" with
        | some s => env.parsedate s
        | none => none
      match bstat_regular_file env (path ++ ".gz") with
      | .error e =>
          if SF.isMissingFileError e then
            .ok { path := path, headers := headers, last_modified := last_modified
                , gzip_path := none, gzip_headers := none }
          else .error e
      | .ok gzip_stat =>
          let headers := hset headers "Vary" "Accept-Encoding"
          let gzip_headers :=
            hset (hset headers "Content-Encoding" "gzip") "Content-Length"
              (toString gzip_stat.st_size)
          .ok { path := path, headers := headers, last_modified := last_modified
              , gzip_path := some (path ++ ".gz"), gzip_headers := some gzip_headers }

/-- `str.split('/')` over a character list (Python keeps empty fields). -/
def splitSlash : List Char → List (List Char)
  | [] => [[]]
  | x :: xs =>
      if x = '/' then [] :: splitSlash xs
      else
        match splitSlash xs with
        | h :: t => (x :: h) :: t
        | [] => [[x]]

/-- `'/'.join(parts)`. -/
def joinSlash : List String → String
  | [] => ""
  | [x] => x
  | x :: xs => x ++ "/" ++ joinSlash xs

/-- `posixpath.normpath` (CPython). -/
def normpath (path : String) : String :=
  if path = "" then "."
  else
    let initial_slashes : Nat :=
      if sstartsWith path "/" then
        (if sstartsWith path "//" && !(sstartsWith path "///") then 2 else 1)
      else 0
    let comps := (splitSlash path.toList).map String.mk
    let new_comps := comps.foldl
      (fun acc comp =>
        if comp = "" || comp = "." then acc
        else if comp != ".." || (decide (initial_slashes = 0) && acc.isEmpty)
            || (!acc.isEmpty && acc.getLast? == some "..") then
          acc ++ [comp]
        else if !acc.isEmpty then acc.dropLast
        else acc)
      []
    let joined := joinSlash new_comps
    let res := String.mk (List.replicate initial_slashes '/') ++ joined
    if res = "" then "." else res

/-- `posixpath.join` for two components (as used in `find_file`). -/
def pjoin (a b : String) : String :=
  if sstartsWith b "/" then b
  else if a = "" || sendsWith a "/" then a ++ b
  else a ++ "/" ++ b

/-- The autorefresh branch of `WhiteNoise.add_files`: the new
`(root, prefix)` mount is inserted at position 0 so that later registrations
are checked first.  (The eager branch instead walks the filesystem into the
`files` dict and is not modelled here; the claims concern on-demand mode.) -/
def add_files_autorefresh (directories : List (String × String)) (root : String)
    (raw_pfx : Option String) : List (String × String) :=
  (root, formatPrefix raw_pfx) :: directories

/-- The mount-scanning loop of `WhiteNoise.find_file`: first mount whose
prefix matches and whose file resolves wins; `MissingFileError` moves on to
the next mount, any other error propagates. -/
def scan_directories (env : BEnv) (url : String) :
    List (String × String) → Except PyErr (Option BStaticFile)
  | [] => .ok none
  | (root, pfx) :: rest =>
      if sstartsWith url pfx then
        match get_static_file env (pjoin root (sdrop url (slen pfx))) url with
        | .ok sf => .ok (some sf)
        | .error e =>
            if SF.isMissingFileError e then scan_directories env url rest
            else .error e
      else scan_directories env url rest

/-- `WhiteNoise.find_file`: reject empty URLs and URLs ending in `/`, reject
URLs whose `normpath` differs from the literal URL, then scan the mounts. -/
def find_file (env : BEnv) (directories : List (String × String)) (url : String) :
    Except PyErr (Option BStaticFile) :=
  if url = "" || sendsWith url "/" then .ok none
  else if normpath url ≠ url then .ok none
  else scan_directories env url directories

end WNB

namespace Compress

/-- The `Compressor` configuration bits `compress` consults (`use_brotli`
already includes the `brotli_installed` conjunction from `__init__`). -/
structure CompressorCfg where
  use_gzip : Bool
  use_brotli : Bool
deriving Repr, DecidableEq

/-- Environment for `Compressor.compress`: reading a file's bytes and the two
compression libraries (bytes are abstracted to `Nat`). -/
structure CompressEnv where
  readFile : String → List Nat
  brotli_compress : List Nat → List Nat
  gzip_compress : List Nat → List Nat

/-- `Compressor.is_compressed_effectively`: a zero-byte original is never
effective; otherwise `ratio = compressed_size / orig_size` must satisfy
`ratio <= 0.95`.  Python computes the ratio with float division; here the
test is rendered in exact integer arithmetic (`ratio ≤ 0.95 = 19/20` over a
positive denominator is `20 * compressed_size ≤ 19 * orig_size`), which
agrees with the float computation at every realistic size.  The lemma
`is_compressed_effectively_iff_ratio` below recovers the rational-ratio
reading. -/
def is_compressed_effectively (orig_size compressed_size : Nat) : Bool :=
  if orig_size = 0 then false
  else decide (20 * compressed_size ≤ 19 * orig_size)

/-- `Compressor.compress`: the list of sibling filenames written by
`write_data` as the generator is drained.  Brotli is tried first; if brotli
compression was not effective the function returns early without attempting
gzip ("If Brotli compression wasn't effective gzip won't be either"). -/
def compress (cfg : CompressorCfg) (env : CompressEnv) (path : String) : List String :=
  let data := env.readFile path
  let size := data.length
  if cfg.use_brotli then
    let compressed := env.brotli_compress data
    if is_compressed_effectively size compressed.length then
      (path ++ ".br") ::
        (if cfg.use_gzip then
          let compressed2 := env.gzip_compress data
          if is_compressed_effectively size compressed2.length then [path ++ ".gz"] else []
        else [])
    else []
  else if cfg.use_gzip then
    let compressed := env.gzip_compress data
    if is_compressed_effectively size compressed.length then [path ++ ".gz"] else []
  else []

end Compress

/-! ### Concrete fixtures used by the per-claim evaluation theorems -/

/-- A stat cache / filesystem given by an association list. -/
def listStatCache (l : List (String × StatResult)) : String → Option StatResult :=
  fun p => (l.find? (fun kv => kv.1 == p)).map (fun kv => kv.2)

/-- A concrete environment for `static_file.py` fixtures.  `formatdate` and
`parsedate` mirror each other the way `email.utils` does on real HTTP dates
(an mtime of 0 formats to a string that parses back to timestamp 100), and
unparseable strings parse to `None` exactly as `parsedate` does. -/
def testSEnv : SF.SEnv :=
  { fstat := SF.osStatOf (fun _ => none)
  , formatdate := fun n => "HTTPDATE" ++ toString n
  , parsedate := fun s =>
      if s = "HTTPDATE0" then some 100
      else if s = "LATERDATE" then some 900
      else none
  , guess_type := fun _ => (some "text/plain", none)
  , md5file := fun p n => "md5-" ++ p ++ "-" ++ toString n }

/-- C1 fixture: a 10-byte file served with a malformed `Range: bytes=abc`. -/
def c1Cache : String → Option StatResult :=
  listStatCache [("f.txt", ⟨10, 0, FType.regular⟩)]

/-- C1 fixture: full `__init__` + `get_response` pipeline outcome. -/
def c1Result : Except PyErr Response :=
  (SF.StaticFile.build testSEnv (some c1Cache) "f.txt" [] [] false).bind
    (fun sf => SF.get_response testSEnv sf "GET" [("HTTP_RANGE", "bytes=abc")])

/-- C2 fixture: a 10-byte file requested with `Range: bytes=0-4`. -/
def c2Cache : String → Option StatResult :=
  listStatCache [("g.bin", ⟨10, 0, FType.regular⟩)]

/-- C2 fixture: full pipeline outcome for the valid range request. -/
def c2Result : Except PyErr Response :=
  (SF.StaticFile.build testSEnv (some c2Cache) "g.bin" [] [] false).bind
    (fun sf => SF.get_response testSEnv sf "GET" [("HTTP_RANGE", "bytes=0-4")])

/-- C3 counterexample fixture: an asset whose caller-supplied `ETag` header is
the empty string. -/
def c3Cache : String → Option StatResult :=
  listStatCache [("h.txt", ⟨10, 0, FType.regular⟩)]

/-- C3 counterexample fixture: build with `ETag: ""`. -/
def c3EmptyEtagBuild : Except PyErr SF.StaticFile :=
  SF.StaticFile.build testSEnv (some c3Cache) "h.txt" [("ETag", "")] [] false

/-- C3 counterexample fixture: a request whose `If-None-Match` equals the
(empty) ETag exactly. -/
def c3EmptyEtagResult : Except PyErr Response :=
  c3EmptyEtagBuild.bind
    (fun sf => SF.get_response testSEnv sf "GET" [("HTTP_IF_NONE_MATCH", "")])

/-- C3 witness fixture: a normal asset with a non-empty caller-supplied ETag. -/
def c3wCache : String → Option StatResult :=
  listStatCache [("w3.txt", ⟨10, 0, FType.regular⟩)]

/-- C3 witness fixture: the file list `get_file_stats` produces. -/
def c3wFiles : List (Option String × FileEntry) :=
  [(none, ⟨"w3.txt", ⟨10, 0, FType.regular⟩⟩)]

/-- C4 fixture: a fresh asset plus a request carrying an unparseable
`If-Modified-Since` value. -/
def c4Cache : String → Option StatResult :=
  listStatCache [("d.txt", ⟨10, 0, FType.regular⟩)]

/-- C4 fixture: full pipeline outcome for the unparseable date. -/
def c4Result : Except PyErr Response :=
  (SF.StaticFile.build testSEnv (some c4Cache) "d.txt" [] [] false).bind
    (fun sf => SF.get_response testSEnv sf "GET" [("HTTP_IF_MODIFIED_SINCE", "not a date")])

/-- C5/C6 fixture: identity (100 bytes), gzip (50 bytes) and brotli
(30 bytes) variants. -/
def c5Cache : String → Option StatResult :=
  listStatCache
    [ ("a.txt", ⟨100, 0, FType.regular⟩)
    , ("a.txt.gz", ⟨50, 0, FType.regular⟩)
    , ("a.txt.br", ⟨30, 0, FType.regular⟩) ]

/-- C5/C6 fixture: the encodings dict passed to `StaticFile.__init__`. -/
def c5Encodings : List (String × String) :=
  [("gzip", "a.txt.gz"), ("br", "a.txt.br")]

/-- C5/C6 fixture: the file list `get_file_stats` produces. -/
def c5Files : List (Option String × FileEntry) :=
  [ (none, ⟨"a.txt", ⟨100, 0, FType.regular⟩⟩)
  , (some "gzip", ⟨"a.txt.gz", ⟨50, 0, FType.regular⟩⟩)
  , (some "br", ⟨"a.txt.br", ⟨30, 0, FType.regular⟩⟩) ]

/-- C5 fixture: full pipeline outcome for `Accept-Encoding: br, gzip`. -/
def c5Result : Except PyErr Response :=
  (SF.StaticFile.build testSEnv (some c5Cache) "a.txt" [] c5Encodings false).bind
    (fun sf => SF.get_response testSEnv sf "GET" [("HTTP_ACCEPT_ENCODING", "br, gzip")])

/-- A concrete environment for `base.py` fixtures (default configuration:
`max_age = 60`, CORS enabled, no immutable files). -/
def testBEnv : WNB.BEnv :=
  { fstat := SF.osStatOf (fun _ => none)
  , formatdate := fun n => "HTTPDATE" ++ toString n
  , parsedate := fun s => if s = "HTTPDATE0" then some 100 else none
  , get_type := fun _ => "text/plain"
  , charset := "utf-8"
  , max_age := some 60
  , allow_all_origins := true
  , is_immutable_file := fun _ _ => false }

/-- C8 fixture: a filesystem carrying the same relative file under two roots. -/
def c8Fs : String → Option StatResult :=
  listStatCache
    [ ("/srv/one/app.js", ⟨11, 0, FType.regular⟩)
    , ("/srv/two/app.js", ⟨22, 0, FType.regular⟩) ]

/-- C8 fixture: `base.py` environment over that filesystem. -/
def c8BEnv : WNB.BEnv :=
  { fstat := SF.osStatOf c8Fs
  , formatdate := fun n => "HTTPDATE" ++ toString n
  , parsedate := fun s => if s = "HTTPDATE0" then some 100 else none
  , get_type := fun _ => "text/plain"
  , charset := "utf-8"
  , max_age := some 60
  , allow_all_origins := true
  , is_immutable_file := fun _ _ => false }

instance : Inhabited WNB.BStaticFile := ⟨⟨"", [], none, none, none⟩⟩

/-- Project the asset out of a successful `get_static_file` result. -/
def bsfOk (x : Except PyErr WNB.BStaticFile) : WNB.BStaticFile :=
  match x with
  | .ok s => s
  | .error _ => default

/-- C8 fixture: the asset the earlier-registered mount would build. -/
def c8sf1 : WNB.BStaticFile :=
  bsfOk (WNB.get_static_file c8BEnv "/srv/one/app.js" "/app.js")

/-- C8 fixture: the asset the later-registered mount builds. -/
def c8sf2 : WNB.BStaticFile :=
  bsfOk (WNB.get_static_file c8BEnv "/srv/two/app.js" "/app.js")

/-- C9 fixture: compressors with fixed 4:1 (brotli) and 2:1 (gzip) output
sizes over a 100-byte stylesheet and an empty file. -/
def c9Env : Compress.CompressEnv :=
  { readFile := fun p => if p = "big.css" then List.replicate 100 65 else []
  , brotli_compress := fun data => List.replicate (data.length / 4) 1
  , gzip_compress := fun data => List.replicate (data.length / 2) 2 }

/-- C9 fixture: gzip and brotli both enabled. -/
def c9Cfg : Compress.CompressorCfg := ⟨true, true⟩

/-- C10 fixture: a stat cache knowing the primary file and its gzip variant
but not the brotli variant. -/
def c10Cache : String → Option StatResult :=
  listStatCache
    [ ("p.txt", ⟨5, 0, FType.regular⟩)
    , ("p.txt.gz", ⟨3, 0, FType.regular⟩) ]

/-- C4 fixture: the same asset with a later, parseable `If-Modified-Since`
value (the code path that does work as specified). -/
def c4OkResult : Except PyErr Response :=
  (SF.StaticFile.build testSEnv (some c4Cache) "d.txt" [] [] false).bind
    (fun sf => SF.get_response testSEnv sf "GET" [("HTTP_IF_MODIFIED_SINCE", "LATERDATE")])

/-- C5/C6 fixture: the assembled three-variant asset. -/
def c5Sf : SF.StaticFile :=
  SF.StaticFile.assemble testSEnv [] c5Files false

/-- C5 fixture: request headers advertising brotli and gzip. -/
def c5Rh : List (String × String) :=
  [("HTTP_ACCEPT_ENCODING", "br, gzip")]

/-- C5 fixture: the negotiated path. -/
def c5ServePath : String :=
  ((SF.get_path_and_headers c5Sf c5Rh).getD ("", [])).1

/-- C5 fixture: the negotiated header list. -/
def c5ServeHeaders : List (String × String) :=
  ((SF.get_path_and_headers c5Sf c5Rh).getD ("", [])).2

end WhiteNoise

/-! ## Theorems -/

namespace WhiteNoise

/-- A `find? p` hit in a `Pairwise r` list is below (or equal to) every other
element satisfying `p`. -/
theorem find?_min_of_pairwise {α : Type} {r : α → α → Prop} {p : α → Bool} :
    ∀ {l : List α} {x : α}, List.Pairwise r l → l.find? p = some x →
      ∀ y ∈ l, p y = true → x = y ∨ r x y := by
  intro l
  induction l with
  | nil => intro x _ hf; simp at hf
  | cons a t ih =>
    intro x hp hf y hy hpy
    by_cases ha : p a = true
    · rw [List.find?_cons_of_pos _ ha] at hf
      obtain rfl := Option.some.inj hf
      rcases List.mem_cons.mp hy with rfl | hyt
      · exact Or.inl rfl
      · exact Or.inr ((List.pairwise_cons.mp hp).1 y hyt)
    · rw [List.find?_cons_of_neg _ ha] at hf
      rcases List.mem_cons.mp hy with rfl | hyt
      · exact absurd hpy ha
      · exact ih (List.pairwise_cons.mp hp).2 hf y hyt hpy

/-- The matcher stored in an alternatives entry is determined by the encoding
key alone. -/
theorem altEntry_matcher (base : Headers) (e : Option String × FileEntry) :
    (SF.altEntry base e).1 = SF.matcherOf e.1 := by
  obtain ⟨enc, fe⟩ := e
  cases enc with
  | none => rfl
  | some s => by_cases h : s = "" <;> simp [SF.altEntry, SF.matcherOf, h]

/-- The path stored in an alternatives entry is the variant's file path. -/
theorem altEntry_path (base : Headers) (e : Option String × FileEntry) :
    (SF.altEntry base e).2.1 = e.2.path := by
  obtain ⟨enc, fe⟩ := e
  cases enc with
  | none => rfl
  | some s => by_cases h : s = "" <;> simp [SF.altEntry, h]

/-- Mapping the `FileEntry` constructor over a stat result preserves the
requested path. -/
theorem build_map_path {fn : String → Except PyErr StatResult} {path : String} {fe : FileEntry}
    (h : (SF.stat_regular_file fn path).map
      (fun r => ({ path := path, stat := r } : FileEntry)) = .ok fe) :
    fe.path = path := by
  cases hs : SF.stat_regular_file fn path with
  | error e => rw [hs] at h; simp [Except.map] at h
  | ok r =>
      rw [hs] at h
      simp only [Except.map, Except.ok.injEq] at h
      rw [← h]

/-- A successful `FileEntry` build records exactly the requested path. -/
theorem FileEntry_build_path {env : SF.SEnv} {c : Option (String → Option StatResult)}
    {path : String} {fe : FileEntry}
    (h : SF.FileEntry.build env c path = .ok fe) : fe.path = path := by
  unfold SF.FileEntry.build at h
  cases c with
  | none => exact build_map_path h
  | some cache => exact build_map_path h

/-- Every file list produced by `get_file_stats` starts with the identity
entry for the requested path. -/
theorem get_file_stats_shape {env : SF.SEnv} {c : Option (String → Option StatResult)}
    {path : String} {encodings : List (String × String)}
    {files : List (Option String × FileEntry)}
    (h : SF.get_file_stats env c path encodings = .ok files) :
    ∃ fe alts, files = (none, fe) :: alts ∧ fe.path = path := by
  unfold SF.get_file_stats at h
  cases hb : SF.FileEntry.build env c path with
  | error e => rw [hb] at h; simp at h
  | ok primary =>
      rw [hb] at h
      cases ha : SF.build_alternatives env c encodings with
      | error e => rw [ha] at h; simp [Except.map] at h
      | ok alts =>
          rw [ha] at h
          simp only [Except.map, Except.ok.injEq] at h
          exact ⟨primary, alts, h.symm, FileEntry_build_path hb⟩

/-- C1: a request with a `Range` header that fails to parse is claimed to
fall back to the plain 200 response without error.  The parse indeed fails
(`bytes=abc` raises `ValueError`), but `get_range_response` never reaches the
fallback: the loop extracting the pre-range `Content-Length` executes
`size = item(item[1])`, calling a tuple, so the whole pipeline raises
`TypeError` instead of returning the 200 response. -/
theorem c1_range_fallback_code_bug :
    SF.parse_byte_range "bytes=abc" = .error PyErr.valueError ∧
    SF.get_range_response "bytes=abc"
      [("Content-Type", "text/plain"), ("Content-Length", "10")] (some ⟨"f.txt", 0⟩)
      = .error PyErr.typeError ∧
    c1Result = .error PyErr.typeError :=
  ⟨by decide, by decide, by decide⟩

/-- C2: `Range: bytes=0-4` against a 10-byte identity file is claimed to
yield 206 with `Content-Range: bytes 0-4/10` and `Content-Length: 5`.  The
pipeline instead raises `TypeError` at `size = item(item[1])`; and even the
byte-window computation in isolation returns `(0, 9)` rather than `(0, 4)`,
because `get_byte_range` clamps the end with `max(end, size - 1)` instead of
`min`. -/
theorem c2_byte_range_code_bug :
    c2Result = .error PyErr.typeError ∧
    SF.get_byte_range "bytes=0-4" 10 = .ok (0, 9) :=
  ⟨by decide, by decide⟩

/-- C3 counterexample: an asset built with an (empty-string) ETag and a
request whose `If-None-Match` equals that ETag exactly nevertheless gets a
fresh 200 response, because `etag_matches` treats a falsy ETag as "no ETag".
This refutes the claim as stated; the amended claim requires the ETag to be
non-empty. -/
theorem c3_empty_etag_counterexample :
    c3EmptyEtagBuild.toOption.map SF.StaticFile.etag = some (some "") ∧
    c3EmptyEtagResult.toOption.map Response.status = some 200 :=
  ⟨by decide, by decide⟩

/-- C4: an `If-Modified-Since` value that does not parse as a date is claimed
to let processing proceed to a normal, non-error fresh response.  Instead the
comparison `parsedate(value) >= self.last_modified` receives `None` on the
left and (under Python 3, a declared supported runtime) raises `TypeError`.
A parseable later date does produce the expected 304, isolating the failure
to the unparseable case. -/
theorem c4_unparseable_ims_code_bug :
    testSEnv.parsedate "not a date" = none ∧
    c4Result = .error PyErr.typeError ∧
    c4OkResult.toOption.map Response.status = some 304 :=
  ⟨by decide, by decide, by decide⟩

/-- Every key of the precomputed 304 response's header list is one of the
six allowed `NOT_MODIFIED_HEADERS` fields. -/
theorem not_modified_headers_keys {headers : Headers} {k : String}
    (hmem : k ∈ (SF.get_not_modified_response headers).headers.map Prod.fst) :
    k ∈ SF.NOT_MODIFIED_HEADERS := by
  unfold SF.get_not_modified_response at hmem
  simp only [List.mem_map, List.mem_filterMap, Option.map_eq_some'] at hmem
  obtain ⟨⟨a, b⟩, ⟨key, hkey, v, hv, heq⟩, hfst⟩ := hmem
  cases heq
  exact hfst ▸ hkey

/-- C3 (amended: the asset's ETag must be non-empty, since `etag_matches`
treats a falsy ETag as absent): for every asset built with a non-empty ETag
and every GET or HEAD request whose `If-None-Match` equals it exactly,
`get_response` returns the precomputed 304 response, whose headers are
exactly the `NOT_MODIFIED_HEADERS` fields present in the merged header set,
with no body and in particular no `Content-Type` or `Content-Length`. -/
theorem c3_etag_not_modified
    (env : SF.SEnv) (stat_cache : Option (String → Option StatResult))
    (path : String) (headers_list encodings : List (String × String)) (add_etag : Bool)
    (files : List (Option String × FileEntry)) (sf : SF.StaticFile)
    (e method : String) (request_headers : List (String × String))
    (hfiles : SF.get_file_stats env stat_cache path encodings = .ok files)
    (hsf : sf = SF.StaticFile.assemble env headers_list files add_etag)
    (hetag : sf.etag = some e) (hne : e ≠ "")
    (hmethod : method = "GET" ∨ method = "HEAD")
    (hinm : rget request_headers "HTTP_IF_NONE_MATCH" = some e) :
    SF.StaticFile.build env stat_cache path headers_list encodings add_etag = .ok sf ∧
    SF.get_response env sf method request_headers = .ok sf.not_modified_response ∧
    sf.not_modified_response.status = 304 ∧
    sf.not_modified_response.file = none ∧
    (∀ k v, (k, v) ∈ sf.not_modified_response.headers ↔
      (k ∈ SF.NOT_MODIFIED_HEADERS ∧
        hget (SF.get_headers env headers_list files add_etag) k = some v)) ∧
    "Content-Type" ∉ sf.not_modified_response.headers.map Prod.fst ∧
    "Content-Length" ∉ sf.not_modified_response.headers.map Prod.fst := by
  have hbuild : SF.StaticFile.build env stat_cache path headers_list encodings add_etag
      = .ok sf := by
    unfold SF.StaticFile.build
    rw [hfiles, hsf]
    rfl
  have hmatch : SF.etag_matches sf request_headers = true := by
    unfold SF.etag_matches
    rw [hetag]
    simp [hne, hinm]
  have hresp : SF.get_response env sf method request_headers
      = .ok sf.not_modified_response := by
    unfold SF.get_response
    rw [if_neg (by rcases hmethod with rfl | rfl <;> simp)]
    unfold SF.is_not_modified
    rw [if_pos hmatch]
  have hnmr : sf.not_modified_response
      = SF.get_not_modified_response (SF.get_headers env headers_list files add_etag) := by
    rw [hsf]; rfl
  refine ⟨hbuild, hresp, by rw [hnmr]; rfl, by rw [hnmr]; rfl, ?_, ?_, ?_⟩
  · intro k v
    rw [hnmr]
    unfold SF.get_not_modified_response
    simp only [List.mem_filterMap, Option.map_eq_some']
    constructor
    · rintro ⟨key, hkey, v2, hv2, heq⟩
      injection heq with h1 h2
      subst h1; subst h2
      exact ⟨hkey, hv2⟩
    · rintro ⟨hk, hv⟩
      exact ⟨k, hk, v, hv, rfl⟩
  · intro hmem
    exact absurd (not_modified_headers_keys (hnmr ▸ hmem)) (by decide)
  · intro hmem
    exact absurd (not_modified_headers_keys (hnmr ▸ hmem)) (by decide)

/-- C3 witness: a concrete asset with ETag `tag-w3` answers a matching
`If-None-Match` GET with its precomputed 304 response. -/
theorem c3_etag_not_modified_witness :
    SF.get_response testSEnv (SF.StaticFile.assemble testSEnv [("ETag", "tag-w3")] c3wFiles false)
        "GET" [("HTTP_IF_NONE_MATCH", "tag-w3")]
      = .ok (SF.StaticFile.assemble testSEnv
          [("ETag", "tag-w3")] c3wFiles false).not_modified_response :=
  (c3_etag_not_modified testSEnv (some c3wCache) "w3.txt" [("ETag", "tag-w3")] [] false
    c3wFiles (SF.StaticFile.assemble testSEnv [("ETag", "tag-w3")] c3wFiles false)
    "tag-w3" "GET" [("HTTP_IF_NONE_MATCH", "tag-w3")]
    (by decide) rfl (by decide) (by decide) (Or.inl rfl) (by decide)).2.1

/-- C7: in on-demand (autorefresh) mode, `find_file` returns no asset (and
raises nothing) for every URL that is empty, ends in `/`, or whose
`posixpath.normpath` form differs from the literal URL. -/
theorem c7_find_file_rejects (env : WNB.BEnv) (directories : List (String × String))
    (url : String)
    (h : url = "" ∨ sendsWith url "/" = true ∨ WNB.normpath url ≠ url) :
    WNB.find_file env directories url = .ok none := by
  unfold WNB.find_file
  rcases h with h | h | h
  · simp [h]
  · simp [h]
  · by_cases h0 : (url = "" || sendsWith url "/") = true
    · simp [h0]
    · simp only [h0, if_false]
      simp [h]

/-- C7 witness: a traversal URL containing `../` normalizes differently from
its literal form and is rejected by `find_file`. -/
theorem c7_find_file_rejects_witness :
    WNB.find_file testBEnv [("/srv/one", "/")] "/static/../secret.txt" = .ok none ∧
    WNB.normpath "/static/../secret.txt" ≠ "/static/../secret.txt" :=
  ⟨c7_find_file_rejects testBEnv [("/srv/one", "/")] "/static/../secret.txt"
      (Or.inr (Or.inr (by decide))),
   by decide⟩

/-- C8: in on-demand mode, after registering mount 1 and then mount 2, a URL
that passes the sanity checks and resolves to an existing file under both
mounts is served from mount 2: `add_files` inserts each new mount at the
front of `directories`, and `find_file` scans the mounts in that order. -/
theorem c8_later_mount_wins (env : WNB.BEnv) (directories : List (String × String))
    (root1 root2 : String) (pfx1 pfx2 : Option String) (url : String)
    (sf1 sf2 : WNB.BStaticFile)
    (hne : url ≠ "") (hslash : sendsWith url "/" = false)
    (hnorm : WNB.normpath url = url)
    (hstart2 : sstartsWith url (WNB.formatPrefix pfx2) = true)
    (hstart1 : sstartsWith url (WNB.formatPrefix pfx1) = true)
    (hfile2 : WNB.get_static_file env
        (WNB.pjoin root2 (sdrop url (slen (WNB.formatPrefix pfx2)))) url = .ok sf2)
    (hfile1 : WNB.get_static_file env
        (WNB.pjoin root1 (sdrop url (slen (WNB.formatPrefix pfx1)))) url = .ok sf1) :
    WNB.find_file env
      (WNB.add_files_autorefresh (WNB.add_files_autorefresh directories root1 pfx1) root2 pfx2)
      url = .ok (some sf2) := by
  unfold WNB.find_file WNB.add_files_autorefresh
  rw [if_neg (by simp [hne, hslash])]
  rw [if_neg (by simp [hnorm])]
  unfold WNB.scan_directories
  rw [if_pos hstart2, hfile2]

/-- C8 witness: two mounts both carrying `app.js`; the later-registered
`/srv/two` mount wins. -/
theorem c8_later_mount_wins_witness :
    WNB.find_file c8BEnv
      (WNB.add_files_autorefresh (WNB.add_files_autorefresh [] "/srv/one" none) "/srv/two" none)
      "/app.js" = .ok (some c8sf2) :=
  c8_later_mount_wins c8BEnv [] "/srv/one" "/srv/two" none none "/app.js" c8sf1 c8sf2
    (by decide) (by decide) (by decide) (by decide) (by decide) (by decide) (by decide)

/-- C6: for every successfully built asset, the alternatives list contains
the identity entry (the primary file's path with the universal matcher), the
universal matcher accepts every Accept-Encoding string — including the empty
string substituted for an absent header — and hence encoding negotiation
always returns some (path, headers) pair. -/
theorem c6_identity_fallback
    (env : SF.SEnv) (stat_cache : Option (String → Option StatResult))
    (path : String) (headers_list encodings : List (String × String)) (add_etag : Bool)
    (files : List (Option String × FileEntry)) (sf : SF.StaticFile)
    (hfiles : SF.get_file_stats env stat_cache path encodings = .ok files)
    (hsf : sf = SF.StaticFile.assemble env headers_list files add_etag) :
    SF.StaticFile.build env stat_cache path headers_list encodings add_etag = .ok sf ∧
    (∃ hs, (SF.Matcher.universal, path, hs) ∈ sf.alternatives) ∧
    (∀ s, SF.Matcher.search SF.Matcher.universal s = true) ∧
    (∀ request_headers, (SF.get_path_and_headers sf request_headers).isSome = true) := by
  obtain ⟨fe, alts, hshape, hpath⟩ := get_file_stats_shape hfiles
  have hbuild : SF.StaticFile.build env stat_cache path headers_list encodings add_etag
      = .ok sf := by
    unfold SF.StaticFile.build
    rw [hfiles, hsf]
    rfl
  have halts : sf.alternatives
      = (List.insertionSort SF.sizeLe files).map
          (SF.altEntry (SF.get_headers env headers_list files add_etag)) := by
    rw [hsf]; rfl
  have hmemfiles : ((none : Option String), fe) ∈ files := by
    rw [hshape]; exact List.mem_cons_self _ _
  have hmemsort : ((none : Option String), fe) ∈ List.insertionSort SF.sizeLe files :=
    ((List.perm_insertionSort SF.sizeLe files).mem_iff).mpr hmemfiles
  have hid : (SF.Matcher.universal, path,
      hset (SF.get_headers env headers_list files add_etag) "Content-Length"
        (toString fe.stat.st_size)) ∈ sf.alternatives := by
    rw [halts]
    refine List.mem_map.mpr ⟨(none, fe), hmemsort, ?_⟩
    simp [SF.altEntry, hpath]
  refine ⟨hbuild, ⟨_, hid⟩, fun s => rfl, ?_⟩
  intro request_headers
  show ((sf.alternatives.find? fun alt =>
      SF.Matcher.search alt.1 ((rget request_headers "HTTP_ACCEPT_ENCODING").getD "")).map
      (fun alt => (alt.2.1, alt.2.2))).isSome = true
  have hex : ∃ alt ∈ sf.alternatives,
      SF.Matcher.search alt.1 ((rget request_headers "HTTP_ACCEPT_ENCODING").getD "") = true :=
    ⟨_, hid, rfl⟩
  cases hf : sf.alternatives.find? (fun alt =>
      SF.Matcher.search alt.1 ((rget request_headers "HTTP_ACCEPT_ENCODING").getD "")) with
  | none =>
      have := List.find?_isSome.mpr hex
      rw [hf] at this
      simp at this
  | some a => rfl

/-- C6 witness: the three-variant asset negotiates successfully for a request
with no `Accept-Encoding` header at all. -/
theorem c6_identity_fallback_witness :
    (SF.get_path_and_headers c5Sf [("HTTP_HOST", "example.com")]).isSome = true :=
  (c6_identity_fallback testSEnv (some c5Cache) "a.txt" [] c5Encodings false c5Files c5Sf
    (by decide) rfl).2.2.2 [("HTTP_HOST", "example.com")]

/-- C5: the negotiated variant of any built asset is the file of a variant
whose matcher accepts the request's Accept-Encoding value and whose size is
minimal among all accepting variants; concretely, against the brotli(30) /
gzip(50) / identity(100) asset, `Accept-Encoding: br, gzip` yields the 200
response carrying `Content-Encoding: br`, the brotli file's path and its
size as `Content-Length`. -/
theorem c5_smallest_matching_variant
    (env : SF.SEnv) (stat_cache : Option (String → Option StatResult))
    (path : String) (headers_list encodings : List (String × String)) (add_etag : Bool)
    (files : List (Option String × FileEntry)) (sf : SF.StaticFile)
    (request_headers : List (String × String)) (p : String) (hs : List (String × String))
    (hfiles : SF.get_file_stats env stat_cache path encodings = .ok files)
    (hsf : sf = SF.StaticFile.assemble env headers_list files add_etag)
    (hserve : SF.get_path_and_headers sf request_headers = some (p, hs)) :
    (∃ enc fe, (enc, fe) ∈ files ∧ fe.path = p ∧
      (SF.matcherOf enc).search ((rget request_headers "HTTP_ACCEPT_ENCODING").getD "") = true ∧
      ∀ enc2 fe2, (enc2, fe2) ∈ files →
        (SF.matcherOf enc2).search
          ((rget request_headers "HTTP_ACCEPT_ENCODING").getD "") = true →
        fe.stat.st_size ≤ fe2.stat.st_size) ∧
    c5Result.toOption.map Response.status = some 200 ∧
    c5Result.toOption.bind (fun r => hget r.headers "Content-Encoding") = some "br" ∧
    c5Result.toOption.bind (fun r => hget r.headers "Content-Length") = some "30" ∧
    c5Result.toOption.bind (fun r => r.file.map FileHandle.path) = some "a.txt.br" := by
  refine ⟨?_, by decide, by decide, by decide, by decide⟩
  subst hsf
  have hserve2 : (((List.insertionSort SF.sizeLe files).map
      (SF.altEntry (SF.get_headers env headers_list files add_etag))).find?
        (fun alt => SF.Matcher.search alt.1
          ((rget request_headers "HTTP_ACCEPT_ENCODING").getD ""))).map
      (fun alt => (alt.2.1, alt.2.2)) = some (p, hs) := hserve
  rw [List.find?_map] at hserve2
  cases hfind : (List.insertionSort SF.sizeLe files).find?
      ((fun alt => SF.Matcher.search alt.1
        ((rget request_headers "HTTP_ACCEPT_ENCODING").getD ""))
        ∘ SF.altEntry (SF.get_headers env headers_list files add_etag)) with
  | none => rw [hfind] at hserve2; simp at hserve2
  | some e0 =>
      rw [hfind] at hserve2
      simp only [Option.map_some'] at hserve2
      obtain ⟨hp, hhs⟩ := Prod.mk.injEq .. |>.mp (Option.some.inj hserve2)
      have hpred0 := List.find?_some hfind
      have hpred : (SF.matcherOf e0.1).search
          ((rget request_headers "HTTP_ACCEPT_ENCODING").getD "") = true := by
        have h1 : (SF.altEntry (SF.get_headers env headers_list files add_etag) e0).1.search
            ((rget request_headers "HTTP_ACCEPT_ENCODING").getD "") = true := hpred0
        rw [altEntry_matcher] at h1
        exact h1
      have hmemsort := List.mem_of_find?_eq_some hfind
      have hmemfiles : e0 ∈ files :=
        ((List.perm_insertionSort SF.sizeLe files).mem_iff).mp hmemsort
      refine ⟨e0.1, e0.2, by simpa using hmemfiles, ?_, hpred, ?_⟩
      · rw [← hp, altEntry_path]
      · intro enc2 fe2 hmem2 hacc2
        have hy : (enc2, fe2) ∈ List.insertionSort SF.sizeLe files :=
          ((List.perm_insertionSort SF.sizeLe files).mem_iff).mpr hmem2
        have hpy : ((fun alt => SF.Matcher.search alt.1
            ((rget request_headers "HTTP_ACCEPT_ENCODING").getD ""))
            ∘ SF.altEntry (SF.get_headers env headers_list files add_etag)) (enc2, fe2)
            = true := by
          show (SF.altEntry (SF.get_headers env headers_list files add_etag)
            (enc2, fe2)).1.search
            ((rget request_headers "HTTP_ACCEPT_ENCODING").getD "") = true
          rw [altEntry_matcher]
          exact hacc2
        rcases find?_min_of_pairwise (List.sorted_insertionSort SF.sizeLe files) hfind
            (enc2, fe2) hy hpy with heq | hle
        · rw [heq]
        · exact hle

/-- C5 witness: the general minimality statement instantiated at the
brotli/gzip/identity asset and `Accept-Encoding: br, gzip`. -/
theorem c5_smallest_matching_variant_witness :
    ∃ enc fe, (enc, fe) ∈ c5Files ∧ fe.path = c5ServePath ∧
      (SF.matcherOf enc).search ((rget c5Rh "HTTP_ACCEPT_ENCODING").getD "") = true ∧
      ∀ enc2 fe2, (enc2, fe2) ∈ c5Files →
        (SF.matcherOf enc2).search ((rget c5Rh "HTTP_ACCEPT_ENCODING").getD "") = true →
        fe.stat.st_size ≤ fe2.stat.st_size :=
  (c5_smallest_matching_variant testSEnv (some c5Cache) "a.txt" [] c5Encodings false
    c5Files c5Sf c5Rh c5ServePath c5ServeHeaders (by decide) rfl (by decide)).1

/-- The integer rendering of the effectiveness test is exactly the rational
"compressed size at most 95% of the original" condition over a non-empty
original. -/
theorem is_compressed_effectively_iff_ratio (o c : Nat) :
    Compress.is_compressed_effectively o c = true ↔
      (o ≠ 0 ∧ (c : ℚ) ≤ 0.95 * (o : ℚ)) := by
  unfold Compress.is_compressed_effectively
  by_cases h : o = 0
  · simp [h]
  · simp only [h, if_false, decide_eq_true_eq]
    have h95 : (0.95 : ℚ) = 19 / 20 := by norm_num
    constructor
    · intro hle
      refine ⟨h, ?_⟩
      have h20 : (20 : ℚ) * (c : ℚ) ≤ 19 * (o : ℚ) := by exact_mod_cast hle
      rw [h95]
      linarith
    · rintro ⟨-, hle⟩
      rw [h95] at hle
      have h20 : (20 : ℚ) * (c : ℚ) ≤ 19 * (o : ℚ) := by linarith
      exact_mod_cast h20

/-- C9: every sibling filename the compressor writes passed the
effectiveness test — `.br` only when the brotli output is at most 95% of the
original, `.gz` only when the gzip output is — and a zero-byte original never
produces a sibling. -/
theorem c9_compress_threshold :
    (∀ (cfg : Compress.CompressorCfg) (env : Compress.CompressEnv) (path f : String),
       f ∈ Compress.compress cfg env path →
       (env.readFile path).length ≠ 0 ∧
       ((f = path ++ ".br" ∧
          ((env.brotli_compress (env.readFile path)).length : ℚ)
            ≤ 0.95 * ((env.readFile path).length : ℚ)) ∨
        (f = path ++ ".gz" ∧
          ((env.gzip_compress (env.readFile path)).length : ℚ)
            ≤ 0.95 * ((env.readFile path).length : ℚ)))) ∧
    (∀ (cfg : Compress.CompressorCfg) (env : Compress.CompressEnv) (path : String),
       (env.readFile path).length = 0 → Compress.compress cfg env path = []) := by
  constructor
  · intro cfg env path f hmem
    simp only [Compress.compress] at hmem
    split at hmem
    · split at hmem
      · rename_i heffb
        have hb := (is_compressed_effectively_iff_ratio _ _).mp heffb
        rcases List.mem_cons.mp hmem with rfl | hmem2
        · exact ⟨hb.1, Or.inl ⟨rfl, hb.2⟩⟩
        · split at hmem2
          · split at hmem2
            · rename_i heffg
              have hg := (is_compressed_effectively_iff_ratio _ _).mp heffg
              exact ⟨hg.1, Or.inr ⟨List.mem_singleton.mp hmem2, hg.2⟩⟩
            · simp at hmem2
          · simp at hmem2
      · simp at hmem
    · split at hmem
      · split at hmem
        · rename_i heffg
          have hg := (is_compressed_effectively_iff_ratio _ _).mp heffg
          exact ⟨hg.1, Or.inr ⟨List.mem_singleton.mp hmem, hg.2⟩⟩
        · simp at hmem
      · simp at hmem
  · intro cfg env path h
    simp only [Compress.compress]
    rw [h]
    simp [Compress.is_compressed_effectively]

/-- C9 witness: the 100-byte stylesheet (brotli 25 bytes, gzip 50 bytes) has
its `.br` sibling inside the write list with the ratio bound, and the empty
file produces no siblings. -/
theorem c9_compress_threshold_witness :
    ((c9Env.readFile "big.css").length ≠ 0 ∧
      (("big.css.br" = "big.css" ++ ".br" ∧
         ((c9Env.brotli_compress (c9Env.readFile "big.css")).length : ℚ)
           ≤ 0.95 * ((c9Env.readFile "big.css").length : ℚ)) ∨
       ("big.css.br" = "big.css" ++ ".gz" ∧
         ((c9Env.gzip_compress (c9Env.readFile "big.css")).length : ℚ)
           ≤ 0.95 * ((c9Env.readFile "big.css").length : ℚ)))) ∧
    Compress.compress c9Cfg c9Env "empty.js" = [] :=
  ⟨c9_compress_threshold.1 c9Cfg c9Env "big.css" "big.css.br" (by decide),
   c9_compress_threshold.2 c9Cfg c9Env "empty.js" (by decide)⟩

/-- The cons-step equation of `build_alternatives`. -/
theorem build_alternatives_cons (env : SF.SEnv) (sc : Option (String → Option StatResult))
    (encoding alt_path : String) (rest : List (String × String)) :
    SF.build_alternatives env sc ((encoding, alt_path) :: rest) =
      match SF.FileEntry.build env sc alt_path with
      | .ok fe => (SF.build_alternatives env sc rest).map (fun l => (some encoding, fe) :: l)
      | .error e =>
          if SF.isMissingFileError e then SF.build_alternatives env sc rest else .error e :=
  rfl

/-- `build_alternatives` skips an encoded alternative whose path is missing
from the injected stat cache exactly as if the entry were not listed at all. -/
theorem build_alternatives_drop {env : SF.SEnv} {cache : String → Option StatResult}
    {encoding encPath : String} (hmiss : cache encPath = none) :
    ∀ (pre post : List (String × String)),
      SF.build_alternatives env (some cache) (pre ++ (encoding, encPath) :: post) =
      SF.build_alternatives env (some cache) (pre ++ post) := by
  have h1 : SF.cacheGetItem cache encPath = .error PyErr.keyError := by
    unfold SF.cacheGetItem
    rw [hmiss]
  have hfe : SF.FileEntry.build env (some cache) encPath = .error PyErr.missingFile := by
    simp only [SF.FileEntry.build, SF.stat_regular_file]
    rw [h1]
    rfl
  intro pre
  induction pre with
  | nil =>
      intro post
      show SF.build_alternatives env (some cache) ((encoding, encPath) :: post) =
        SF.build_alternatives env (some cache) post
      rw [build_alternatives_cons, hfe]
      rfl
  | cons a pre ih =>
      intro post
      obtain ⟨ea, pa⟩ := a
      show SF.build_alternatives env (some cache)
          ((ea, pa) :: (pre ++ (encoding, encPath) :: post)) =
        SF.build_alternatives env (some cache) ((ea, pa) :: (pre ++ post))
      rw [build_alternatives_cons, build_alternatives_cons, ih]

/-- C10: a `FileEntry` built from a stat cache lacking the path fails with
`MissingFileError`, the very outcome produced by a live `os.stat` on a path
absent from the filesystem (`ENOENT`); consequently `get_file_stats` treats a
cache-missing encoded alternative exactly as if it had not been listed,
rather than surfacing an internal error. -/
theorem c10_cache_miss_dropped :
    (∀ (env : SF.SEnv) (cache fs : String → Option StatResult) (path : String),
       cache path = none → fs path = none → env.fstat = SF.osStatOf fs →
       SF.FileEntry.build env (some cache) path = .error PyErr.missingFile ∧
       SF.FileEntry.build env none path = .error PyErr.missingFile) ∧
    (∀ (env : SF.SEnv) (cache : String → Option StatResult)
       (primaryPath encoding encPath : String) (pre post : List (String × String)),
       cache encPath = none →
       SF.get_file_stats env (some cache) primaryPath (pre ++ (encoding, encPath) :: post) =
       SF.get_file_stats env (some cache) primaryPath (pre ++ post)) := by
  constructor
  · intro env cache fs path hc hf henv
    constructor
    · have h1 : SF.cacheGetItem cache path = .error PyErr.keyError := by
        unfold SF.cacheGetItem
        rw [hc]
      simp only [SF.FileEntry.build, SF.stat_regular_file]
      rw [h1]
      rfl
    · have h2 : env.fstat path = .error (PyErr.osError 2) := by
        rw [henv]
        unfold SF.osStatOf
        rw [hf]
      simp only [SF.FileEntry.build, SF.stat_regular_file]
      rw [h2]
      rfl
  · intro env cache primaryPath encoding encPath pre post hmiss
    unfold SF.get_file_stats
    cases hb : SF.FileEntry.build env (some cache) primaryPath with
    | error e => rfl
    | ok primary => rw [build_alternatives_drop hmiss pre post]

/-- C10 witness: with a cache knowing `p.txt` and `p.txt.gz` but not
`p.txt.br`, building the entry for `p.txt.br` fails with `MissingFileError`
both through the cache and through a live stat on an empty filesystem, and
the brotli alternative is silently dropped from the variant build. -/
theorem c10_cache_miss_dropped_witness :
    (SF.FileEntry.build testSEnv (some c10Cache) "p.txt.br" = .error PyErr.missingFile ∧
     SF.FileEntry.build testSEnv none "p.txt.br" = .error PyErr.missingFile) ∧
    SF.get_file_stats testSEnv (some c10Cache) "p.txt"
        ([("gzip", "p.txt.gz")] ++ ("br", "p.txt.br") :: []) =
      SF.get_file_stats testSEnv (some c10Cache) "p.txt" ([("gzip", "p.txt.gz")] ++ []) :=
  ⟨c10_cache_miss_dropped.1 testSEnv c10Cache (fun _ => none) "p.txt.br"
      (by decide) rfl rfl,
   c10_cache_miss_dropped.2 testSEnv c10Cache "p.txt" "br" "p.txt.br"
      [("gzip", "p.txt.gz")] [] (by decide)⟩

end WhiteNoise
